import Mathlib

/-!
Verification development for the optmize-order dispatch platform.

Shallow embedding of the JavaScript source modules:
* `CacheManager` (003-utilities-helpers.js, in-file copy in the background-scheduler module)
* `AdvancedCacheManager` (026-advanced-cache-manager.js)
* `SmartResourceManager` (024-smart-resource-management.js)
* `BackgroundJobScheduler` (030-background-job-scheduler.js)
* `CircuitBreakerErrorHandler` (028-error-handler-circuit-breaker.js)
* `EnhancedSecurityMonitoring` (025-enhanced-security-monitoring.js)
* `OptimizedDriverSearch` (023-optimized-driver-search.js) with the haversine helper
  `distanceRadius` (003-utilities-helpers.js)

JavaScript numbers are modelled as `ℤ`/`ℕ`/`ℚ` where the code only performs exact
integer or short decimal arithmetic, and as `ℝ` for the trigonometric geometry.
JavaScript `Map`s are modelled as association lists with JS `Map` semantics:
`set` replaces the value of the first matching key in place, otherwise appends.
-/

namespace CacheManager

/-- Entry stored by `CacheManager.set`: the value, the insertion instant
(`Date.now()` in ms) and the TTL converted to ms. -/
structure CacheEntry (V : Type) where
  data : V
  timestamp : ℤ
  ttl : ℤ
  deriving Repr, DecidableEq

/-- The in-memory store `CacheManager.cache`, a JS `Map` keyed by strings. -/
def CMap (V : Type) := List (String × CacheEntry V)

/-- JS `Map.prototype.get`. -/
def cacheLookup {V : Type} (c : CMap V) (key : String) : Option (CacheEntry V) :=
  match c with
  | [] => none
  | (k, e) :: rest => if k = key then some e else cacheLookup rest key

/-- JS `Map.prototype.set`: replace the first matching key in place, else append. -/
def cacheStore {V : Type} (c : CMap V) (key : String) (e : CacheEntry V) : CMap V :=
  match c with
  | [] => [(key, e)]
  | (k, e0) :: rest => if k = key then (key, e) :: rest else (k, e0) :: cacheStore rest key e

/-- `CacheManager.get(key, ttlMinutes)`: the `ttlMinutes` parameter is accepted but
unused; the expiry check compares `Date.now() - cached.timestamp` strictly against
the TTL stored with the entry. -/
def get {V : Type} (c : CMap V) (key : String) (_ttlMinutes : ℤ) (now : ℤ) : Option V :=
  match cacheLookup c key with
  | some cached => if now - cached.timestamp < cached.ttl then some cached.data else none
  | none => none

/-- `CacheManager.set(key, data, ttlMinutes)`: stores the insertion instant and
`ttlMinutes * 60 * 1000` ms of TTL. -/
def set {V : Type} (c : CMap V) (key : String) (data : V) (ttlMinutes : ℤ) (now : ℤ) : CMap V :=
  cacheStore c key { data := data, timestamp := now, ttl := ttlMinutes * 60 * 1000 }

theorem cacheLookup_cacheStore_self {V : Type} (c : CMap V) (key : String) (e : CacheEntry V) :
    cacheLookup (cacheStore c key e) key = some e := by
  induction c with
  | nil => simp [cacheStore, cacheLookup]
  | cons hd tl ih =>
    obtain ⟨k, e0⟩ := hd
    by_cases h : k = key
    · simp [cacheStore, cacheLookup, h]
    · simp [cacheStore, cacheLookup, h, ih]

/-- Claim C8 (amended): a key last stored by `set(k, v, ttl)` at instant `t0` is
returned by `get(k)` exactly when `now − t0` is strictly below the stored TTL
(`ttl` minutes = `ttl·60000` ms); at `now − t0 = ttl` and beyond, `get` returns
null; a key never stored returns null.  Expiry is decided lazily inside `get`. -/
theorem get_after_set {V : Type} (c : CMap V) (k : String) (v : V)
    (ttlMin t0 now tm : ℤ) :
    (get (set c k v ttlMin t0) k tm now =
      if now - t0 < ttlMin * 60 * 1000 then some v else none) ∧
    (∀ key tm2 now2, get ([] : CMap V) key tm2 now2 = none) := by
  constructor
  · simp [get, set, cacheLookup_cacheStore_self]
  · intro key tm2 now2
    simp [get, cacheLookup]

/-- Claim C8, counterexample to the claim as stated: the claim says `get(k)`
returns `v` whenever `now − t0 ≤ ttl`.  Store `42` under `"k"` with a 5-minute
TTL at `t0 = 0` and read it at `now = 300000` (so `now − t0` equals the TTL
exactly): the code returns null, not the value. -/
theorem get_at_exact_ttl_boundary :
    get (set ([] : CMap ℕ) "k" 42 5 0) "k" 5 300000 = none ∧
    (300000 : ℤ) - 0 ≤ 5 * 60 * 1000 := by
  constructor
  · simp [get, set, cacheStore, cacheLookup]
  · norm_num

end CacheManager

namespace AdvancedCacheManager

/-- `AdvancedCacheManager.calculateOptimalTTL(key, baseMinutes)`.
Inputs are the state read by the method: the key's access-pattern timestamps
(`accessPatterns.get(key)`, `[]` when absent), the key's hit/total counters
(`hitRates.get(key)`, `none` when absent) and the current instant.  The JS
decimal literals 3.0, 2.0, 0.5, 1.2, 0.8, 0.9, 0.3 are modelled as the exact
rationals they denote; at the claimed inputs the float computation agrees. -/
def calculateOptimalTTL (accessPattern : List ℤ) (hitRate : Option (ℕ × ℕ))
    (now : ℤ) (baseMinutes : ℚ) : ℚ :=
  if accessPattern.length < 5 then baseMinutes
  else
    let recentAccesses := accessPattern.filter (fun time => now - time < 60 * 60 * 1000)
    let accessFrequency := recentAccesses.length
    let m1 : ℚ :=
      if accessFrequency > 50 then 3
      else if accessFrequency > 20 then 2
      else if accessFrequency < 5 then 1 / 2
      else 1
    let m2 : ℚ :=
      match hitRate with
      | some (hits, total) =>
        if total > 10 then
          let hitRatePercent : ℚ := (hits : ℚ) / (total : ℚ)
          if hitRatePercent > 9 / 10 then m1 * (12 / 10)
          else if hitRatePercent < 3 / 10 then m1 * (8 / 10)
          else m1
        else m1
      | none => m1
    ((max 1 (min 120 (⌊baseMinutes * m2⌋ : ℤ))) : ℤ)

/-- Claim C9: for a key accessed 60 times within the last hour, with more than 10
recorded hit-rate samples and a hit rate of 0.95, `calculateOptimalTTL(key, 5)`
returns `clamp(1, 120, ⌊5 · 3.0 · 1.2⌋) = 18` minutes. -/
theorem calculateOptimalTTL_hot_high_hit_rate (accessPattern : List ℤ) (now : ℤ)
    (hits total : ℕ)
    (hfreq : (accessPattern.filter (fun time => now - time < 60 * 60 * 1000)).length = 60)
    (htotal : 10 < total) (hrate : (hits : ℚ) / (total : ℚ) = 95 / 100) :
    calculateOptimalTTL accessPattern (some (hits, total)) now 5 = 18 := by
  have hlen : ¬ accessPattern.length < 5 := by
    have hle := List.length_filter_le (fun time => now - time < 60 * 60 * 1000) accessPattern
    omega
  simp only [calculateOptimalTTL, hlen, if_false, hfreq, hrate, htotal, if_true]
  norm_num

/-- Claim C9, witness: 60 accesses all at instant 0 read at instant 0, hit
counters 19/20 (hit rate 0.95 over 20 > 10 samples). -/
theorem calculateOptimalTTL_hot_high_hit_rate_witness :
    calculateOptimalTTL (List.replicate 60 0) (some (19, 20)) 0 5 = 18 := by
  apply calculateOptimalTTL_hot_high_hit_rate
  · simp [List.filter_replicate]
  · norm_num
  · norm_num

end AdvancedCacheManager

namespace SmartResourceManager

/-- Usage counters `SmartResourceManager.resourceUsage`, modelled as an
association list from resource-type name to the current count. -/
def Usage := List (String × ℤ)

/-- Association-list lookup, JS object property access. -/
def lookupAL (al : List (String × ℤ)) (k : String) : Option ℤ :=
  match al with
  | [] => none
  | (k0, v) :: rest => if k0 = k then some v else lookupAL rest k

/-- Association-list update, JS object property assignment. -/
def setAL (al : List (String × ℤ)) (k : String) (v : ℤ) : List (String × ℤ) :=
  match al with
  | [] => [(k, v)]
  | (k0, v0) :: rest => if k0 = k then (k, v) :: rest else (k0, v0) :: setAL rest k v

/-- `SmartResourceManager.resourceLimits` (the static initializer). -/
def resourceLimits : List (String × ℤ) :=
  [("maxConcurrentDispatch", 100),
   ("maxMemoryUsage", 512 * 1024 * 1024),
   ("maxCPUUsage", 80),
   ("maxDatabaseConnections", 50)]

/-- The limit key computed by `acquireResource`:
```max${resourceType.charAt(0).toUpperCase() + resourceType.slice(1)}``. -/
def limitKeyOf (resourceType : String) : String :=
  match resourceType.data with
  | [] => "max"
  | c :: rest => "max" ++ String.mk (c.toUpper :: rest)

/-- Observable outcome of `SmartResourceManager.acquireResource`. -/
inductive AcquireOutcome where
  /-- `throw new Error(`Undefined resource type: ...`)`. -/
  | undefinedResource (resourceType : String)
  /-- `throw new HttpsError('resource-exhausted', ...)` after `handleResourceExhaustion`. -/
  | resourceExhausted (resourceType : String) (attempted limit : ℤ)
  /-- Success: the updated usage table plus the handle data `{resourceType, amount}`
  whose `release()` later calls `releaseResource resourceType amount`. -/
  | acquired (usage : List (String × ℤ)) (resourceType : String) (amount : ℤ)
  deriving Repr, DecidableEq

/-- `SmartResourceManager.acquireResource(resourceType, amount)`. -/
def acquireResource (usage : List (String × ℤ)) (resourceType : String) (amount : ℤ) :
    AcquireOutcome :=
  let limitKey := limitKeyOf resourceType
  match lookupAL resourceLimits limitKey with
  | none => .undefinedResource resourceType
  | some limit =>
    let currentUsage := (lookupAL usage resourceType).getD 0
    if currentUsage + amount > limit then
      .resourceExhausted resourceType (currentUsage + amount) limit
    else
      .acquired (setAL usage resourceType (currentUsage + amount)) resourceType amount

/-- `SmartResourceManager.releaseResource(resourceType, amount)`. -/
def releaseResource (usage : List (String × ℤ)) (resourceType : String) (amount : ℤ) :
    List (String × ℤ) :=
  setAL usage resourceType (max 0 ((lookupAL usage resourceType).getD 0 - amount))

/-- Claim C1, evaluation at the failing input: `acquireResource('activeDispatch', n)`
never succeeds — for every usage state and every amount it throws
`Undefined resource type: activeDispatch`, because the computed limit key is
`maxActiveDispatch` while the limits table stores the dispatch limit under
`maxConcurrentDispatch`.  In particular the call made by `dispatchOrder`
(`acquireResource('activeDispatch', 1)` with zero current usage) throws instead
of acquiring a slot, and the `ResourceExhausted` branch is unreachable for this
resource type. -/
theorem acquireResource_activeDispatch_undefined (usage : List (String × ℤ)) (amount : ℤ) :
    acquireResource usage "activeDispatch" amount =
      AcquireOutcome.undefinedResource "activeDispatch" := by
  rfl

end SmartResourceManager

namespace BackgroundJobScheduler

/-- Job status strings of `BackgroundJobScheduler`. -/
inductive JStatus where
  | scheduled
  | running
  | completed
  | failed
  | timeout
  deriving Repr, DecidableEq

/-- A job trigger: a concrete epoch in ms (one-shot) or an interval string. -/
inductive Sched where
  | oneShot (epoch : ℤ)
  | periodic (token : String)
  deriving Repr, DecidableEq

/-- The `options` object built by `scheduleJob` (after defaults are applied). -/
structure JobOptions where
  priority : String
  maxRetries : ℕ
  timeout : ℤ
  deriving Repr, DecidableEq

/-- A record of the scheduler's `jobs` map (the `function` field is not part of
the state; its behaviour is supplied to `executeJob` as a `JobOutcome`). -/
structure Job where
  id : String
  schedule : Sched
  options : JobOptions
  nextRun : ℤ
  lastRun : Option ℤ
  retryCount : ℕ
  status : JStatus
  startedAt : Option ℤ
  executionTime : Option ℤ
  lastError : Option String
  deriving Repr, DecidableEq

/-- `BackgroundJobScheduler.parseInterval` lookup table (default 60000). -/
def parseInterval (s : String) : ℤ :=
  if s = "every second" then 1000
  else if s = "every 5 seconds" then 5 * 1000
  else if s = "every 10 seconds" then 10 * 1000
  else if s = "every 30 seconds" then 30 * 1000
  else if s = "every minute" then 60 * 1000
  else if s = "every 5 minutes" then 5 * 60 * 1000
  else if s = "every 10 minutes" then 10 * 60 * 1000
  else if s = "every 30 minutes" then 30 * 60 * 1000
  else if s = "every hour" then 60 * 60 * 1000
  else if s = "every day" then 24 * 60 * 60 * 1000
  else 60 * 1000

/-- `BackgroundJobScheduler.calculateNextRun(schedule)` at instant `now`. -/
def calculateNextRun (schedule : Sched) (now : ℤ) : ℤ :=
  match schedule with
  | .oneShot s => if s > now then s else now
  | .periodic tok => if tok.startsWith "every " then now + parseInterval tok else now + 60000

/-- `BackgroundJobScheduler.scheduleJob(jobId, fn, schedule, options)` at instant
`now`: the job record inserted into the `jobs` map. -/
def scheduleJob (jobId : String) (schedule : Sched) (options : JobOptions) (now : ℤ) : Job :=
  { id := jobId
    schedule := schedule
    options := options
    nextRun := calculateNextRun schedule now
    lastRun := none
    retryCount := 0
    status := .scheduled
    startedAt := none
    executionTime := none
    lastError := none }

/-- Result of racing `job.function()` against the timeout promise inside
`executeJob`: the function resolves, the function rejects with an error message
(one not containing `'Job timed out'`), or the timeout promise rejects first. -/
inductive JobOutcome where
  | success
  | failure (msg : String)
  | timedOut
  deriving Repr, DecidableEq

/-- `BackgroundJobScheduler.handleJobSuccess(job)` at instant `now`. -/
def handleJobSuccess (job : Job) (now : ℤ) : Job :=
  let j := { job with
    status := JStatus.completed
    lastRun := some now
    retryCount := 0
    executionTime := some (now - job.startedAt.getD now) }
  match job.schedule with
  | .oneShot _ => j
  | .periodic _ =>
    { j with nextRun := calculateNextRun job.schedule now, status := JStatus.scheduled }

/-- `BackgroundJobScheduler.handleJobError(job, error)` at instant `now`; the
second component records whether `logCriticalAction('job_failed_max_retries', …)`
was invoked. -/
def handleJobError (job : Job) (now : ℤ) (msg : String) : Job × Bool :=
  let rc := job.retryCount + 1
  let j := { job with
    status := JStatus.failed
    lastError := some msg
    retryCount := rc
    executionTime := some (now - job.startedAt.getD now) }
  if rc < job.options.maxRetries then
    ({ j with nextRun := now + (rc : ℤ) * 30000, status := JStatus.scheduled }, false)
  else
    (j, true)

/-- `BackgroundJobScheduler.handleJobTimeout(job)` at instant `now`; the second
component records whether `logCriticalAction('job_timeout_max_retries', …)` was
invoked. -/
def handleJobTimeout (job : Job) (now : ℤ) : Job × Bool :=
  let rc := job.retryCount + 1
  let j := { job with
    status := JStatus.timeout
    lastError := some ("Job timed out after " ++ toString job.options.timeout ++ "ms")
    retryCount := rc
    executionTime := some (now - job.startedAt.getD now) }
  if rc < job.options.maxRetries then
    ({ j with nextRun := now + (rc : ℤ) * 60000, status := JStatus.scheduled }, false)
  else
    (j, true)

/-- `BackgroundJobScheduler.executeJob(job)` started at instant `now` with the
race outcome `outcome`.  Returns the job's state in the `jobs` map afterwards
(`none` when the `finally` block removed it via `removeJob`) and whether a
critical action was logged. -/
def executeJob (job : Job) (now : ℤ) (outcome : JobOutcome) : Option Job × Bool :=
  let j0 := { job with status := JStatus.running, startedAt := some now, lastError := none }
  let step : Job × Bool :=
    match outcome with
    | .success => (handleJobSuccess j0 now, false)
    | .failure msg => handleJobError j0 now msg
    | .timedOut => handleJobTimeout j0 now
  let j1 := step.1
  let removed : Bool :=
    match j1.schedule with
    | .oneShot _ =>
      j1.status == JStatus.completed ||
        (j1.status == JStatus.failed && decide (j1.retryCount ≥ j1.options.maxRetries))
    | .periodic _ => false
  (if removed then none else some j1, step.2)

/-- The filter predicate of `BackgroundJobScheduler.getReadyJobs`. -/
def jobIsReady (running : List String) (now : ℤ) (job : Job) : Bool :=
  decide (job.nextRun ≤ now) &&
    (job.status == JStatus.scheduled ||
      (job.status == JStatus.failed && decide (job.retryCount < job.options.maxRetries))) &&
    !(running.contains job.id)

/-- The priority table `{high: 0, normal: 1, low: 2}` used by `getReadyJobs`
(priorities come from this closed set). -/
def priorityOrder (p : String) : ℤ :=
  if p = "high" then 0 else if p = "normal" then 1 else 2

/-- The sort order of `getReadyJobs`: priority ascending, ties by earlier
`nextRun` (the JS comparator returns the priority difference when nonzero, else
the `nextRun` difference). -/
def readyLe (a b : Job) : Bool :=
  if priorityOrder a.options.priority = priorityOrder b.options.priority then
    decide (a.nextRun ≤ b.nextRun)
  else
    decide (priorityOrder a.options.priority < priorityOrder b.options.priority)

/-- `BackgroundJobScheduler.getReadyJobs()` over the job table at instant `now`,
with `running` the ids in `currentlyRunning`. -/
def getReadyJobs (jobs : List Job) (running : List String) (now : ℤ) : List Job :=
  (jobs.filter (jobIsReady running now)).mergeSort readyLe

/-- The claim C2 scenario's job: a one-shot job scheduled at epoch `now0` (at
instant `now0`) with `maxRetries = 2` and default priority/timeout. -/
def jobC2 (now0 : ℤ) : Job :=
  scheduleJob "j" (.oneShot now0) { priority := "normal", maxRetries := 2, timeout := 300000 } now0

/-- The state of the claim C2 scenario's job after its first failed run. -/
def jobC2afterFirstFailure (now0 : ℤ) (msg : String) : Job :=
  { id := "j"
    schedule := .oneShot now0
    options := { priority := "normal", maxRetries := 2, timeout := 300000 }
    nextRun := now0 + 30000
    lastRun := none
    retryCount := 1
    status := JStatus.scheduled
    startedAt := some now0
    executionTime := some 0
    lastError := some msg }

/-- Claim C2 (amended): for a one-shot job scheduled at epoch `now0` whose
function always throws, with `maxRetries = 2`: the first failure (run at `now0`)
leaves `retryCount = 1`, `nextRun = now0 + 30 s` and status scheduled (and the
job is again ready at that `nextRun`); the second failure (run at that
`nextRun`) reaches `retryCount = 2 = maxRetries`, logs the critical action and
removes the job from the table — no third run occurs. -/
theorem oneShot_retry_sequence (now0 : ℤ) (m1 m2 : String) :
    executeJob (jobC2 now0) now0 (.failure m1) =
      (some (jobC2afterFirstFailure now0 m1), false) ∧
    (jobC2afterFirstFailure now0 m1).retryCount = 1 ∧
    (jobC2afterFirstFailure now0 m1).nextRun = now0 + 30000 ∧
    jobIsReady [] (now0 + 30000) (jobC2afterFirstFailure now0 m1) = true ∧
    executeJob (jobC2afterFirstFailure now0 m1) (now0 + 30000) (.failure m2) =
      (none, true) := by
  refine ⟨?_, rfl, rfl, ?_, ?_⟩
  · simp [executeJob, handleJobError, jobC2, scheduleJob, calculateNextRun,
      jobC2afterFirstFailure]
  · simp [jobIsReady, jobC2afterFirstFailure]
  · simp [executeJob, handleJobError, jobC2afterFirstFailure]

/-- Claim C2, counterexample to the claim as stated: at `now0 = 0`, the second
failure (run at `nextRun = 30000`) removes the job from the table and logs the
critical action.  The claim's asserted state after the second failure
(`retryCount = 2` with `nextRun = now + 60 s`, removal only after a third
failure) is impossible: the job is gone, so no third run exists. -/
theorem oneShot_second_failure_removes :
    executeJob (jobC2 0) 0 (.failure "e1") = (some (jobC2afterFirstFailure 0 "e1"), false) ∧
    executeJob (jobC2afterFirstFailure 0 "e1") 30000 (.failure "e2") = (none, true) := by
  constructor
  · simp [executeJob, handleJobError, jobC2, scheduleJob, calculateNextRun,
      jobC2afterFirstFailure]
  · simp [executeJob, handleJobError, jobC2afterFirstFailure]

/-- The claim C3 failing input: a one-shot job with `maxRetries = 1` whose only
run times out. -/
def jobC3 : Job :=
  scheduleJob "t" (.oneShot 0) { priority := "normal", maxRetries := 1, timeout := 5000 } 0

/-- Claim C3, evaluation at the failing input: a one-shot job whose run times out
with no retries remaining reaches the terminal state `timeout` (with
`retryCount = 1 ≥ maxRetries = 1` and the critical action logged) yet is NOT
removed from the job table: the `finally` clean-up in `executeJob` only removes
one-shot jobs whose status is `'completed'` or `'failed'`, and the timeout path
leaves status `'timeout'`. -/
theorem executeJob_timeout_not_removed :
    executeJob jobC3 0 .timedOut =
      (some { id := "t"
              schedule := .oneShot 0
              options := { priority := "normal", maxRetries := 1, timeout := 5000 }
              nextRun := 0
              lastRun := none
              retryCount := 1
              status := JStatus.timeout
              startedAt := some 0
              executionTime := some 0
              lastError := some "Job timed out after 5000ms" }, true) ∧
    jobC3.options.maxRetries = 1 := by
  constructor
  · simp [executeJob, handleJobTimeout, jobC3, scheduleJob, calculateNextRun]
    rfl
  · rfl

end BackgroundJobScheduler

namespace CircuitBreakerErrorHandler

/-- Circuit-breaker states (`'CLOSED' | 'OPEN' | 'HALF_OPEN'`). -/
inductive BState where
  | closed
  | opened
  | halfOpen
  deriving Repr, DecidableEq

/-- One entry of `CircuitBreakerErrorHandler.circuitBreakers`. -/
structure Breaker where
  state : BState
  failures : ℕ
  resetTime : ℤ
  deriving Repr, DecidableEq

/-- The `circuitBreakers` map, keyed by ```${operationName}_${identifier}` ``. -/
abbrev BMap := List (String × Breaker)

/-- JS `Map.prototype.get` on the breaker map. -/
def bmapGet (m : BMap) (key : String) : Option Breaker :=
  match m with
  | [] => none
  | (k, b) :: rest => if k = key then some b else bmapGet rest key

/-- JS `Map.prototype.set` on the breaker map. -/
def bmapSet (m : BMap) (key : String) (b : Breaker) : BMap :=
  match m with
  | [] => [(key, b)]
  | (k, b0) :: rest => if k = key then (key, b) :: rest else (k, b0) :: bmapSet rest key b

/-- `CircuitBreakerErrorHandler.isCircuitOpen(breakerKey)` at instant `now`.
Returns the answer and the (possibly mutated) map: an OPEN breaker whose
`resetTime` has strictly passed is moved to HALF_OPEN and reported not open. -/
def isCircuitOpen (m : BMap) (key : String) (now : ℤ) : Bool × BMap :=
  match bmapGet m key with
  | none => (false, m)
  | some breaker =>
    match breaker.state with
    | .opened =>
      if now > breaker.resetTime then
        (false, bmapSet m key { breaker with state := BState.halfOpen })
      else
        (true, m)
    | _ => (false, m)

/-- `CircuitBreakerErrorHandler.recordSuccess(breakerKey)`. -/
def recordSuccess (m : BMap) (key : String) : BMap :=
  match bmapGet m key with
  | none => m
  | some breaker =>
    match breaker.state with
    | .halfOpen => bmapSet m key { state := BState.closed, failures := 0, resetTime := 0 }
    | .closed => bmapSet m key { breaker with failures := 0 }
    | .opened => m

/-- `CircuitBreakerErrorHandler.recordFailure(breakerKey, error, maxFailures,
resetTimeoutMs)` at instant `now` (the error-pattern log is side-channel only
and is not modelled). -/
def recordFailure (m : BMap) (key : String) (now : ℤ) (maxFailures : ℕ)
    (resetTimeoutMs : ℤ) : BMap :=
  let m1 := if (bmapGet m key).isSome then m
            else bmapSet m key { state := BState.closed, failures := 0, resetTime := 0 }
  let breaker := (bmapGet m1 key).getD { state := BState.closed, failures := 0, resetTime := 0 }
  match breaker.state with
  | .opened => m1
  | .closed =>
    let b1 := { breaker with failures := breaker.failures + 1 }
    if b1.failures ≥ maxFailures then
      bmapSet m1 key { b1 with state := BState.opened, resetTime := now + resetTimeoutMs }
    else
      bmapSet m1 key b1
  | .halfOpen =>
    let b1 := { breaker with failures := breaker.failures + 1 }
    bmapSet m1 key { b1 with state := BState.opened, resetTime := now + resetTimeoutMs }

/-- Observable result of `handleAsyncWithCircuitBreaker`. -/
inductive RunResult (E V : Type) where
  /-- The entry check threw ``Circuit breaker is OPEN for ...``. -/
  | circuitOpen
  /-- An attempt succeeded and its value was returned. -/
  | ok (v : V)
  /-- All attempts were consumed and `lastError` was rethrown (`none` only in the
  degenerate case of a zero-attempt budget, where JS throws `undefined`). -/
  | failed (e : Option E)
  deriving Repr, DecidableEq

/-- The retry loop of `handleAsyncWithCircuitBreaker` (`for attempt = 1 ..
retryAttempts`).  Each list element is one scheduled attempt: the operation's
result (`Except.error` = throw) and the instant the attempt finishes.  Returns
the result, the breaker map, and how many times the operation was invoked. -/
def runLoop {E V : Type} (key : String) (maxFailures : ℕ) (resetTimeoutMs : ℤ) :
    BMap → List (Except E V × ℤ) → Option E → RunResult E V × BMap × ℕ
  | m, [], lastError => (.failed lastError, m, 0)
  | m, (r, t) :: rest, _ =>
    match r with
    | .ok v => (.ok v, recordSuccess m key, 1)
    | .error e =>
      let m1 := recordFailure m key t maxFailures resetTimeoutMs
      let (res, m2, n) := runLoop key maxFailures resetTimeoutMs m1 rest (some e)
      (res, m2, n + 1)

/-- `CircuitBreakerErrorHandler.handleAsyncWithCircuitBreaker(operation,
operationName, identifier, options)`: the entry `isCircuitOpen` check at instant
`now`, then the retry loop over the scheduled attempts (`attempts.length` is the
`retryAttempts` budget). -/
def handleAsyncWithCircuitBreaker {E V : Type} (m : BMap) (key : String)
    (attempts : List (Except E V × ℤ)) (maxFailures : ℕ) (resetTimeoutMs : ℤ)
    (now : ℤ) : RunResult E V × BMap × ℕ :=
  let c := isCircuitOpen m key now
  if c.1 then (.circuitOpen, c.2, 0)
  else runLoop key maxFailures resetTimeoutMs c.2 attempts none

theorem runLoop_all_errors {E V : Type} (key : String) (maxFailures : ℕ)
    (resetTimeoutMs : ℤ) (errs : List (E × ℤ)) :
    ∀ (m : BMap) (last : Option E),
      ((runLoop key maxFailures resetTimeoutMs m
          (errs.map (fun p => ((Except.error p.1 : Except E V), p.2))) last).1 =
        RunResult.failed (((errs.map Prod.fst).getLast?).or last)) ∧
      ((runLoop key maxFailures resetTimeoutMs m
          (errs.map (fun p => ((Except.error p.1 : Except E V), p.2))) last).2.2 =
        errs.length) := by
  induction errs with
  | nil => intro m last; simp [runLoop]
  | cons hd tl ih =>
    intro m last
    have := ih (recordFailure m key hd.2 maxFailures resetTimeoutMs) (some hd.1)
    simp only [runLoop, List.map_cons]
    constructor
    · rw [this.1]
      cases tl with
      | nil => simp
      | cons h2 t2 =>
        simp only [List.map_cons, List.getLast?_cons_cons]
        rw [List.getLast?_eq_getLast _ (by simp)]
        simp
    · simpa using this.2

/-- Claim C4 (amended): `handleAsyncWithCircuitBreaker` applies no error-class
filter.  Every error thrown by the wrapped operation — including
`Unauthenticated`, `PermissionDenied`, `InvalidArgument`, `NotFound` and
operation-thrown `CircuitOpen`-style errors — is caught, recorded as a breaker
failure and retried: when the breaker is not open on entry and every attempt
throws, the operation is invoked exactly `retryAttempts` times and the LAST
error is then propagated.  Only the wrapper's own entry check short-circuits
(raising `CircuitOpen` with zero invocations when the breaker is open). -/
theorem handleAsync_retries_every_error {E V : Type} (m : BMap) (key : String)
    (errs : List (E × ℤ)) (maxFailures : ℕ) (resetTimeoutMs now : ℤ)
    (hne : errs ≠ []) (hopen : (isCircuitOpen m key now).1 = false) :
    ((handleAsyncWithCircuitBreaker m key
        (errs.map (fun p => ((Except.error p.1 : Except E V), p.2)))
        maxFailures resetTimeoutMs now).1 =
      RunResult.failed (some (errs.getLast hne).1)) ∧
    ((handleAsyncWithCircuitBreaker m key
        (errs.map (fun p => ((Except.error p.1 : Except E V), p.2)))
        maxFailures resetTimeoutMs now).2.2 = errs.length) := by
  have h := runLoop_all_errors (V := V) key maxFailures resetTimeoutMs errs
    (isCircuitOpen m key now).2 none
  have hlast : ((errs.map Prod.fst).getLast?).or none = some (errs.getLast hne).1 := by
    rw [Option.or_none, List.getLast?_map, List.getLast?_eq_getLast _ hne]
    rfl
  rw [hlast] at h
  simp only [handleAsyncWithCircuitBreaker, hopen, Bool.false_eq_true, if_false]
  exact h

/-- Claim C4, witness: a fresh breaker and three attempts, all failing. -/
theorem handleAsync_retries_every_error_witness :
    ((isCircuitOpen [] "op_x" 0).1 = false) ∧
    ((handleAsyncWithCircuitBreaker ([] : BMap) "op_x"
        ([(("not-found", 0), (0 : ℤ)), (("not-found", 1), 0),
          (("not-found", 2), 0)].map
          (fun p => ((Except.error p.1 : Except (String × ℕ) Unit), p.2)))
        5 30000 0).2.2 = 3) := by
  refine ⟨rfl, ?_⟩
  exact (handleAsync_retries_every_error ([] : BMap) "op_x"
    [(("not-found", 0), (0 : ℤ)), (("not-found", 1), 0), (("not-found", 2), 0)]
    5 30000 0 (by simp) rfl).2

/-- Claim C4, counterexample to the claim as stated: an operation that always
throws a `NotFound` error (`'not-found'`) is not rethrown immediately — with a
budget of 3 attempts the wrapper invokes it 3 times (not 1) and only then
propagates the error. -/
theorem notFound_error_retried_three_times :
    (handleAsyncWithCircuitBreaker ([] : BMap) "getOrder_"
        [((Except.error "not-found" : Except String Unit), 0),
         ((Except.error "not-found" : Except String Unit), 0),
         ((Except.error "not-found" : Except String Unit), 0)]
        5 30000 0).2.2 = 3 ∧
    (handleAsyncWithCircuitBreaker ([] : BMap) "getOrder_"
        [((Except.error "not-found" : Except String Unit), 0),
         ((Except.error "not-found" : Except String Unit), 0),
         ((Except.error "not-found" : Except String Unit), 0)]
        5 30000 0).1 = RunResult.failed (some "not-found") ∧
    (3 : ℕ) ≠ 1 := by
  refine ⟨rfl, rfl, by norm_num⟩

/-- Claim C5: with `maxFailures = 2`, `resetTimeout = 100` ms and one attempt per
`run` call on key `K`: two consecutive failing runs (at instant 0) leave the
breaker OPEN with `resetTime = 100`; a third run at instant 50 (within 100 ms)
raises `CircuitOpen` with the operation never invoked; a run at instant 150
(after the window) whose operation succeeds passes through HALF_OPEN and leaves
the breaker CLOSED with `failures = 0`. -/
theorem circuit_open_half_open_scenario :
    handleAsyncWithCircuitBreaker ([] : BMap) "K"
        [((Except.error "e1" : Except String String), 0)] 2 100 0 =
      (RunResult.failed (some "e1"),
        [("K", { state := BState.closed, failures := 1, resetTime := 0 })], 1) ∧
    handleAsyncWithCircuitBreaker
        [("K", { state := BState.closed, failures := 1, resetTime := 0 })] "K"
        [((Except.error "e2" : Except String String), 0)] 2 100 0 =
      (RunResult.failed (some "e2"),
        [("K", { state := BState.opened, failures := 2, resetTime := 100 })], 1) ∧
    handleAsyncWithCircuitBreaker
        [("K", { state := BState.opened, failures := 2, resetTime := 100 })] "K"
        [((Except.error "e3" : Except String String), 50)] 2 100 50 =
      (RunResult.circuitOpen,
        [("K", { state := BState.opened, failures := 2, resetTime := 100 })], 0) ∧
    handleAsyncWithCircuitBreaker
        [("K", { state := BState.opened, failures := 2, resetTime := 100 })] "K"
        [((Except.ok "v" : Except String String), 150)] 2 100 150 =
      (RunResult.ok "v",
        [("K", { state := BState.closed, failures := 0, resetTime := 0 })], 1) := by
  refine ⟨?_, ?_, ?_, ?_⟩ <;> decide

end CircuitBreakerErrorHandler

namespace EnhancedSecurityMonitoring

/-- The `contextData` blob passed to `detectAdvancedThreats` together with the
external data read by the analyzers: membership of `clientIP` in
`AdvancedSecurityManager.suspiciousIPs` and in the `malicious_ips` store, the
local hour from `new Date().getHours()`, and the behavioural sub-score returned
by `AIFraudDetection.checkBehaviorPatterns` (an external collaborator). -/
structure ThreatContext where
  multipleDevices : Bool
  rapidLocationChanges : Bool
  unusualUserAgent : Bool
  excessiveFailedLogins : Bool
  suspiciousIP : Bool
  knownMaliciousIP : Bool
  vpnDetected : Bool
  torDetected : Bool
  hour : ℕ
  aiBehaviorScore : ℚ
  automatedBehaviorDetected : Bool
  unusualTransactionPattern : Bool
  deriving Repr

/-- A user's entry of `suspiciousPatterns`: `(activity, timestamp)` pairs. -/
abbrev ActivityPattern := List (String × ℤ)

/-- `EnhancedSecurityMonitoring.addActivityToPattern(userId, activity)` at
instant `now`: push the pair, trim a window above 200 entries down to the last
100. -/
def addActivityToPattern (pattern : ActivityPattern) (activity : String) (now : ℤ) :
    ActivityPattern :=
  let p := pattern ++ [(activity, now)]
  if p.length > 200 then p.drop (p.length - 100) else p

/-- `EnhancedSecurityMonitoring.hasRapidActionPattern(userId, activity)` over
the user's activity pattern at instant `now`. -/
def hasRapidActionPattern (pattern : ActivityPattern) (activity : String) (now : ℤ) : Bool :=
  if pattern.length < 5 then false
  else
    let oneMinuteAgo := now - 60000
    let recentSpecificActions :=
      pattern.filter (fun entry => entry.1 == activity && decide (entry.2 > oneMinuteAgo))
    let recentTotalActions := pattern.filter (fun entry => decide (entry.2 > oneMinuteAgo))
    if recentSpecificActions.length > 5 then true
    else if recentTotalActions.length > 15 then true
    else false

/-- `EnhancedSecurityMonitoring.analyzeSessionBehavior`. -/
def analyzeSessionBehavior (ctx : ThreatContext) : ℚ :=
  (if ctx.multipleDevices then 20 else 0) +
  (if ctx.rapidLocationChanges then 30 else 0) +
  (if ctx.unusualUserAgent then 15 else 0) +
  (if ctx.excessiveFailedLogins then 25 else 0)

/-- `EnhancedSecurityMonitoring.analyzeNetworkPatterns`. -/
def analyzeNetworkPatterns (ctx : ThreatContext) : ℚ :=
  (if ctx.suspiciousIP then 40 else 0) +
  (if ctx.knownMaliciousIP then 60 else 0) +
  (if ctx.vpnDetected then 10 else 0) +
  (if ctx.torDetected then 35 else 0)

/-- `EnhancedSecurityMonitoring.analyzeTemporalPatterns` (the user's pattern has
already received the current activity via `addActivityToPattern`). -/
def analyzeTemporalPatterns (ctx : ThreatContext) (pattern : ActivityPattern)
    (activity : String) (now : ℤ) : ℚ :=
  (if 0 ≤ ctx.hour ∧ ctx.hour ≤ 5 then 15 else 0) +
  (if hasRapidActionPattern pattern activity now then 25 else 0)

/-- `EnhancedSecurityMonitoring.analyzeBehaviorAnomalies` (the decimal weight
0.8 is the exact rational 8/10). -/
def analyzeBehaviorAnomalies (ctx : ThreatContext) : ℚ :=
  ctx.aiBehaviorScore * (8 / 10) +
  (if ctx.automatedBehaviorDetected then 40 else 0) +
  (if ctx.unusualTransactionPattern then 30 else 0)

/-- `EnhancedSecurityMonitoring.calculateThreatScore`: sum the four analyzer
scores and clamp to 100 (`Math.min(score, 100)`). -/
def calculateThreatScore (ctx : ThreatContext) (pattern : ActivityPattern)
    (activity : String) (now : ℤ) : ℚ :=
  min (analyzeSessionBehavior ctx + analyzeNetworkPatterns ctx +
    analyzeTemporalPatterns ctx pattern activity now + analyzeBehaviorAnomalies ctx) 100

/-- Observable actions of one `detectAdvancedThreats` evaluation: the returned
score, the `securityFlag` written to the user document (with the `suspended`
field of the same update), the severity of the recorded incident, the
`autoActions` list of the incident, and which threat counter was bumped. -/
structure ThreatActions where
  score : ℚ
  securityFlag : Option String
  suspended : Option Bool
  incidentSeverity : Option String
  autoActions : List String
  bucket : Option String
  deriving Repr

/-- `EnhancedSecurityMonitoring.detectAdvancedThreats(userId, activity,
contextData)`: the user's stored pattern `pattern0` first receives the current
activity, then the threat score is computed and the threshold actions run
(`handleHighThreatActivity` at ≥ 75, `handleMediumThreatActivity` at ≥ 50,
low-threat counting at ≥ 30). -/
def detectAdvancedThreats (ctx : ThreatContext) (pattern0 : ActivityPattern)
    (activity : String) (now : ℤ) : ThreatActions :=
  let pattern := addActivityToPattern pattern0 activity now
  let threatScore := calculateThreatScore ctx pattern activity now
  if threatScore ≥ 75 then
    { score := threatScore
      securityFlag := some "HIGH_THREAT"
      suspended := some (decide (threatScore > 95))
      incidentSeverity := some "HIGH"
      autoActions := ["account_flagged", "admin_notified"] ++
        (if threatScore > 95 then ["account_suspended"] else [])
      bucket := some "high" }
  else if threatScore ≥ 50 then
    { score := threatScore
      securityFlag := none
      suspended := none
      incidentSeverity := some "MEDIUM"
      autoActions := []
      bucket := some "medium" }
  else if threatScore ≥ 30 then
    { score := threatScore
      securityFlag := none
      suspended := none
      incidentSeverity := none
      autoActions := []
      bucket := some "low" }
  else
    { score := threatScore
      securityFlag := none
      suspended := none
      incidentSeverity := none
      autoActions := []
      bucket := none }

/-- Claim C7 (amended): a threat evaluation marks the subject suspended exactly
when the computed score is STRICTLY greater than 95 (`suspended: score > 95` in
`handleHighThreatActivity`); the HIGH_THREAT flag and the HIGH-severity incident
are produced exactly when the score is at least 75. -/
theorem suspended_iff_score_above_95 (ctx : ThreatContext) (pattern0 : ActivityPattern)
    (activity : String) (now : ℤ) :
    ((detectAdvancedThreats ctx pattern0 activity now).suspended = some true ↔
      95 < (detectAdvancedThreats ctx pattern0 activity now).score) ∧
    ((detectAdvancedThreats ctx pattern0 activity now).securityFlag = some "HIGH_THREAT" ↔
      75 ≤ (detectAdvancedThreats ctx pattern0 activity now).score) ∧
    ((detectAdvancedThreats ctx pattern0 activity now).incidentSeverity = some "HIGH" ↔
      75 ≤ (detectAdvancedThreats ctx pattern0 activity now).score) := by
  obtain ⟨s, hs⟩ :
      ∃ s, calculateThreatScore ctx (addActivityToPattern pattern0 activity now) activity now
        = s := ⟨_, rfl⟩
  unfold detectAdvancedThreats
  simp only [hs]
  split_ifs with h1 h2 h3
  all_goals refine ⟨?_, ?_, ?_⟩
  all_goals
    first
    | (simp; done)
    | (simp [h1]; done)
    | (simp; linarith [lt_of_not_ge h1])

/-- Claim C7, counterexample to the claim as stated: a context with rapid
location changes (+30), excessive failed logins (+25) and a locally suspicious
client IP (+40) at hour 12 yields a computed score of exactly 95.  The claim
requires suspension at score ≥ 95, but the evaluation flags HIGH_THREAT,
records a HIGH incident and sets `suspended: false` (the code's check is the
strict `score > 95`). -/
theorem score_exactly_95_not_suspended :
    (detectAdvancedThreats
        { multipleDevices := false, rapidLocationChanges := true,
          unusualUserAgent := false, excessiveFailedLogins := true,
          suspiciousIP := true, knownMaliciousIP := false,
          vpnDetected := false, torDetected := false, hour := 12,
          aiBehaviorScore := 0, automatedBehaviorDetected := false,
          unusualTransactionPattern := false } [] "order_place" 0).score = 95 ∧
    (detectAdvancedThreats
        { multipleDevices := false, rapidLocationChanges := true,
          unusualUserAgent := false, excessiveFailedLogins := true,
          suspiciousIP := true, knownMaliciousIP := false,
          vpnDetected := false, torDetected := false, hour := 12,
          aiBehaviorScore := 0, automatedBehaviorDetected := false,
          unusualTransactionPattern := false } [] "order_place" 0).suspended =
      some false ∧
    (detectAdvancedThreats
        { multipleDevices := false, rapidLocationChanges := true,
          unusualUserAgent := false, excessiveFailedLogins := true,
          suspiciousIP := true, knownMaliciousIP := false,
          vpnDetected := false, torDetected := false, hour := 12,
          aiBehaviorScore := 0, automatedBehaviorDetected := false,
          unusualTransactionPattern := false } [] "order_place" 0).securityFlag =
      some "HIGH_THREAT" ∧
    (detectAdvancedThreats
        { multipleDevices := false, rapidLocationChanges := true,
          unusualUserAgent := false, excessiveFailedLogins := true,
          suspiciousIP := true, knownMaliciousIP := false,
          vpnDetected := false, torDetected := false, hour := 12,
          aiBehaviorScore := 0, automatedBehaviorDetected := false,
          unusualTransactionPattern := false } [] "order_place" 0).incidentSeverity =
      some "HIGH" := by
  refine ⟨?_, ?_, ?_, ?_⟩ <;>
    simp [detectAdvancedThreats, calculateThreatScore, analyzeSessionBehavior,
      analyzeNetworkPatterns, analyzeTemporalPatterns, analyzeBehaviorAnomalies,
      addActivityToPattern, hasRapidActionPattern] <;> norm_num

end EnhancedSecurityMonitoring

namespace OptimizedDriverSearch

/-- A driver record as consumed by `OptimizedDriverSearch`: id, optional
position, the two activity flags, and the heartbeat instant
(`lastSeenOnline.toMillis()`, absent when the field is missing). -/
structure Driver where
  id : String
  location : Option (ℝ × ℝ)
  active : Bool
  isActive : Bool
  lastSeenOnline : Option ℤ

/-- `OptimizedDriverSearch.gridSize` (degrees). -/
noncomputable def gridSize : ℝ := 0.01

/-- `OptimizedDriverSearch.getGridKey(latitude, longitude)`.  The source renders
`Math.floor(x / gridSize) * gridSize` to 6 decimal places; with `gridSize =
0.01` that string is uniquely determined by (and determines) the integer pair
`(⌊lat/g⌋, ⌊lng/g⌋)`, which is used as the key here. -/
noncomputable def getGridKey (latitude longitude : ℝ) : ℤ × ℤ :=
  (⌊latitude / gridSize⌋, ⌊longitude / gridSize⌋)

/-- The spatial index `Map<gridKey, List<Driver>>`, in insertion order. -/
abbrev Index := List ((ℤ × ℤ) × List Driver)

/-- JS `Map.prototype.get` on the spatial index. -/
def indexFind (idx : Index) (key : ℤ × ℤ) : Option (List Driver) :=
  match idx with
  | [] => none
  | (k, cell) :: rest => if k = key then some cell else indexFind rest key

/-- `spatialIndex.get(key) || []`. -/
def indexGet (idx : Index) (key : ℤ × ℤ) : List Driver :=
  (indexFind idx key).getD []

/-- JS `Map.prototype.set` on the spatial index. -/
def indexSet (idx : Index) (key : ℤ × ℤ) (cell : List Driver) : Index :=
  match idx with
  | [] => [(key, cell)]
  | (k, c0) :: rest =>
    if k = key then (key, cell) :: rest else (k, c0) :: indexSet rest key cell

/-- The liveness check of `updateSpatialIndex`:
`driver.active && driver.isActive && driver.lastSeenOnline &&
(now - driver.lastSeenOnline.toMillis()) < 10 * 60 * 1000`. -/
def updateLive (now : ℤ) (d : Driver) : Bool :=
  d.active && d.isActive &&
    match d.lastSeenOnline with
    | some t => decide (now - t < 10 * 60 * 1000)
    | none => false

/-- The liveness check of `cleanupOldIndexEntries`:
`driver.active && driver.isActive && driver.lastSeenOnline &&
driver.lastSeenOnline.toMillis() > cutoffTime`. -/
def cleanupLive (cutoffTime : ℤ) (d : Driver) : Bool :=
  d.active && d.isActive &&
    match d.lastSeenOnline with
    | some t => decide (t > cutoffTime)
    | none => false

/-- The per-cell upsert of `updateSpatialIndex`: replace the entry at
`findIndex(e => e.id === driver.id)` when it exists, else push. -/
def upsertCell : List Driver → Driver → List Driver
  | [], d => [d]
  | e :: rest, d => if e.id = d.id then d :: rest else e :: upsertCell rest d

/-- The per-driver body of the `drivers.forEach` loop in `updateSpatialIndex`:
skip drivers without a position; ensure the grid cell exists; insert the driver
into its cell only when the liveness check passes. -/
noncomputable def addDriverToIndex (now : ℤ) (idx : Index) (d : Driver) : Index :=
  match d.location with
  | none => idx
  | some loc =>
    let key := getGridKey loc.1 loc.2
    let idx1 := if (indexFind idx key).isSome then idx else indexSet idx key []
    if updateLive now d then indexSet idx1 key (upsertCell (indexGet idx1 key) d)
    else idx1

/-- `OptimizedDriverSearch.cleanupOldIndexEntries()` at instant `now`: filter
each cell by the liveness check and delete cells that become empty. -/
def cleanupOldIndexEntries (now : ℤ) (idx : Index) : Index :=
  let cutoffTime := now - 10 * 60 * 1000
  (idx.map (fun e => (e.1, e.2.filter (cleanupLive cutoffTime)))).filter
    (fun e => !e.2.isEmpty)

/-- `OptimizedDriverSearch.updateSpatialIndex(drivers)` at instant `now`: build
a fresh index from the driver list, replace the old one, then run
`cleanupOldIndexEntries`. -/
noncomputable def updateSpatialIndex (drivers : List Driver) (now : ℤ) : Index :=
  cleanupOldIndexEntries now (drivers.foldl (addDriverToIndex now) [])

/-- JS `Math.atan2(y, x)`. -/
noncomputable def atan2 (y x : ℝ) : ℝ :=
  if 0 < x then Real.arctan (y / x)
  else if x < 0 ∧ 0 ≤ y then Real.arctan (y / x) + Real.pi
  else if x < 0 ∧ y < 0 then Real.arctan (y / x) - Real.pi
  else if x = 0 ∧ 0 < y then Real.pi / 2
  else if x = 0 ∧ y < 0 then -(Real.pi / 2)
  else 0

/-- `distanceRadius(lat1, lon1, lat2, lon2)` from 003-utilities-helpers.js:
haversine distance in miles with Earth radius 3958.8. -/
noncomputable def distanceRadius (lat1 lon1 lat2 lon2 : ℝ) : ℝ :=
  let r : ℝ := 3958.8
  let dLat := (lat2 - lat1) * Real.pi / 180
  let dLon := (lon2 - lon1) * Real.pi / 180
  let a :=
    Real.sin (dLat / 2) * Real.sin (dLat / 2) +
      Real.cos (lat1 * Real.pi / 180) * Real.cos (lat2 * Real.pi / 180) *
        Real.sin (dLon / 2) * Real.sin (dLon / 2)
  let c := 2 * atan2 (Real.sqrt a) (Real.sqrt (1 - a))
  r * c

/-- `OptimizedDriverSearch.getNearbyGridKeys(latitude, longitude, radiusMiles)`.
The JS loop iterates `lat` from `⌊(latitude−Δlat)/g⌋·g` while `lat ≤
⌈(latitude+Δlat)/g⌉·g` in steps of `g` (same for `lng`) and collects
`getGridKey(lat, lng)` into a `Set`; in exact real arithmetic `getGridKey(i·g,
j·g) = (i, j)`, so the generated keys are exactly the integer box below (each
key once, in loop order). -/
noncomputable def getNearbyGridKeys (latitude longitude radiusMiles : ℝ) :
    List (ℤ × ℤ) :=
  let milesPerDegreeLat : ℝ := 69
  let milesPerDegreeLon : ℝ := 69 * Real.cos (latitude * Real.pi / 180)
  let latRangeDegrees := radiusMiles / milesPerDegreeLat
  let lonRangeDegrees := radiusMiles / milesPerDegreeLon
  let iStart := ⌊(latitude - latRangeDegrees) / gridSize⌋
  let iEnd := ⌈(latitude + latRangeDegrees) / gridSize⌉
  let jStart := ⌊(longitude - lonRangeDegrees) / gridSize⌋
  let jEnd := ⌈(longitude + lonRangeDegrees) / gridSize⌉
  ((List.range (iEnd + 1 - iStart).toNat).map (fun a => iStart + (a : ℤ))).flatMap
    (fun i =>
      ((List.range (jEnd + 1 - jStart).toNat).map (fun b => jStart + (b : ℤ))).map
        (fun j => (i, j)))

/-- The `nearbyDrivers` map of `getDriversNearLocation`, keyed by `driver.id`:
`set` on an existing id replaces the stored `{...driver, distance}` in place,
otherwise appends. -/
def mapUpsert : List (Driver × ℝ) → Driver × ℝ → List (Driver × ℝ)
  | [], e => [e]
  | x :: rest, e => if x.1.id = e.1.id then e :: rest else x :: mapUpsert rest e

/-- The body of the inner `gridDrivers.forEach(driver => ...)` loop of
`getDriversNearLocation`: compute the precise distance and upsert the driver
into the `nearbyDrivers` map when it is within the radius. -/
noncomputable def scanDriver (latitude longitude radiusMiles : ℝ)
    (acc : List (Driver × ℝ)) (driver : Driver) : List (Driver × ℝ) :=
  match driver.location with
  | some loc =>
    let distance := distanceRadius latitude longitude loc.1 loc.2
    if distance ≤ radiusMiles then mapUpsert acc (driver, distance) else acc
  | none => acc

/-- The body of the outer `gridKeys.forEach(key => ...)` loop of
`getDriversNearLocation`: scan every driver of the cell at `key`. -/
noncomputable def scanCell (idx : Index) (latitude longitude radiusMiles : ℝ)
    (acc : List (Driver × ℝ)) (key : ℤ × ℤ) : List (Driver × ℝ) :=
  (indexGet idx key).foldl (scanDriver latitude longitude radiusMiles) acc

/-- `OptimizedDriverSearch.getDriversNearLocation(latitude, longitude,
radiusMiles)`: scan the cells of the nearby grid keys, keep each driver whose
precise `distanceRadius` to the query point is within the radius (deduplicated
by id), and sort ascending by distance (`sort((a, b) => a.distance -
b.distance)`, a stable sort, modelled by `mergeSort`). -/
noncomputable def getDriversNearLocation (idx : Index)
    (latitude longitude radiusMiles : ℝ) : List (Driver × ℝ) :=
  let gridKeys := getNearbyGridKeys latitude longitude radiusMiles
  let nearbyDrivers := gridKeys.foldl (scanCell idx latitude longitude radiusMiles) []
  nearbyDrivers.mergeSort (fun a b => decide (a.2 ≤ b.2))

theorem mem_upsertCell {cell : List Driver} {d x : Driver}
    (hx : x ∈ upsertCell cell d) : x ∈ cell ∨ x = d := by
  induction cell with
  | nil =>
    simp only [upsertCell, List.mem_singleton] at hx
    exact Or.inr hx
  | cons e rest ih =>
    by_cases h : e.id = d.id
    · simp only [upsertCell, h, if_true, List.mem_cons] at hx
      rcases hx with hx | hx
      · exact Or.inr hx
      · exact Or.inl (List.mem_cons_of_mem _ hx)
    · simp only [upsertCell, h, if_false, List.mem_cons] at hx
      rcases hx with hx | hx
      · exact Or.inl (by simp [hx])
      · rcases ih hx with h2 | h2
        · exact Or.inl (List.mem_cons_of_mem _ h2)
        · exact Or.inr h2

theorem mem_indexSet {idx : Index} {key : ℤ × ℤ} {cell : List Driver}
    {e : (ℤ × ℤ) × List Driver} (he : e ∈ indexSet idx key cell) :
    e ∈ idx ∨ e = (key, cell) := by
  induction idx with
  | nil =>
    simp only [indexSet, List.mem_singleton] at he
    exact Or.inr he
  | cons e0 rest ih =>
    obtain ⟨k, c0⟩ := e0
    by_cases h : k = key
    · simp only [indexSet, h, if_true, List.mem_cons] at he
      rcases he with he | he
      · exact Or.inr he
      · exact Or.inl (List.mem_cons_of_mem _ he)
    · simp only [indexSet, h, if_false, List.mem_cons] at he
      rcases he with he | he
      · exact Or.inl (by simp [he])
      · rcases ih he with h2 | h2
        · exact Or.inl (List.mem_cons_of_mem _ h2)
        · exact Or.inr h2

theorem mem_of_indexFind {idx : Index} {key : ℤ × ℤ} {cell : List Driver}
    (h : indexFind idx key = some cell) : (key, cell) ∈ idx := by
  induction idx with
  | nil => simp [indexFind] at h
  | cons e0 rest ih =>
    obtain ⟨k, c0⟩ := e0
    by_cases hk : k = key
    · simp only [indexFind, hk, if_true, Option.some.injEq] at h
      subst hk h
      exact List.mem_cons_self _ _
    · simp only [indexFind, hk, if_false] at h
      exact List.mem_cons_of_mem _ (ih h)

theorem mem_of_mem_indexGet {idx : Index} {key : ℤ × ℤ} {x : Driver}
    (hx : x ∈ indexGet idx key) : ∃ e ∈ idx, x ∈ e.2 := by
  unfold indexGet at hx
  cases h : indexFind idx key with
  | none => rw [h] at hx; simp at hx
  | some cell =>
    rw [h] at hx
    exact ⟨(key, cell), mem_of_indexFind h, hx⟩

/-- Every driver stored in any cell of the index satisfies `P`. -/
abbrev CellSound (P : Driver → Prop) (idx : Index) : Prop :=
  ∀ e ∈ idx, ∀ x ∈ e.2, P x

theorem cellSound_indexSet {P : Driver → Prop} {idx : Index} {key : ℤ × ℤ}
    {cell : List Driver} (hidx : CellSound P idx) (hcell : ∀ x ∈ cell, P x) :
    CellSound P (indexSet idx key cell) := by
  intro e he x hx
  rcases mem_indexSet he with he | he
  · exact hidx e he x hx
  · subst he; exact hcell x hx

theorem cellSound_addDriverToIndex {P : Driver → Prop} {idx : Index} {now : ℤ}
    {d : Driver} (hidx : CellSound P idx)
    (hd : updateLive now d = true → d.location.isSome → P d) :
    CellSound P (addDriverToIndex now idx d) := by
  cases hloc : d.location with
  | none => simpa [addDriverToIndex, hloc] using hidx
  | some loc =>
    have hidx1 : CellSound P
        (if (indexFind idx (getGridKey loc.1 loc.2)).isSome then idx
         else indexSet idx (getGridKey loc.1 loc.2) []) := by
      split
      · exact hidx
      · exact cellSound_indexSet hidx (by simp)
    simp only [addDriverToIndex, hloc]
    split
    · next hlive =>
      apply cellSound_indexSet hidx1
      intro x hx
      rcases mem_upsertCell hx with hx | hx
      · obtain ⟨e, he, hxe⟩ := mem_of_mem_indexGet hx
        exact hidx1 e he x hxe
      · subst hx
        exact hd hlive (by simp [hloc])
    · exact hidx1

theorem cellSound_foldl {P : Driver → Prop} {now : ℤ} (ds : List Driver) :
    ∀ idx0 : Index, CellSound P idx0 →
      (∀ d ∈ ds, updateLive now d = true → d.location.isSome → P d) →
      CellSound P (ds.foldl (addDriverToIndex now) idx0) := by
  induction ds with
  | nil => intro idx0 h0 _; simpa using h0
  | cons d rest ih =>
    intro idx0 h0 hds
    simp only [List.foldl_cons]
    exact ih _ (cellSound_addDriverToIndex h0 (hds d (by simp)))
      (fun d2 hd2 => hds d2 (List.mem_cons_of_mem _ hd2))

theorem mem_cleanup {now : ℤ} {idx : Index} {e : (ℤ × ℤ) × List Driver}
    (he : e ∈ cleanupOldIndexEntries now idx) :
    ∃ e0 ∈ idx, e.2 = e0.2.filter (cleanupLive (now - 10 * 60 * 1000)) := by
  unfold cleanupOldIndexEntries at he
  obtain ⟨hmem, -⟩ := List.mem_filter.mp he
  obtain ⟨e0, he0, heq⟩ := List.mem_map.mp hmem
  exact ⟨e0, he0, by rw [← heq]⟩

/-- Index soundness after `updateSpatialIndex(drivers)`: every driver readable
from any cell comes from the input list, passes the strict liveness check and
carries a position. -/
theorem indexGet_updateSpatialIndex_sound {drivers : List Driver} {now : ℤ}
    {key : ℤ × ℤ} {x : Driver}
    (hx : x ∈ indexGet (updateSpatialIndex drivers now) key) :
    x ∈ drivers ∧ updateLive now x = true ∧ x.location.isSome := by
  obtain ⟨e, he, hxe⟩ := mem_of_mem_indexGet hx
  unfold updateSpatialIndex at he
  obtain ⟨e0, he0, heq⟩ := mem_cleanup he
  rw [heq] at hxe
  have hx0 : x ∈ e0.2 := (List.mem_filter.mp hxe).1
  have hsound : CellSound
      (fun d => d ∈ drivers ∧ updateLive now d = true ∧ d.location.isSome)
      (drivers.foldl (addDriverToIndex now) []) :=
    cellSound_foldl drivers [] (by simp) (fun d hd hlive hloc => ⟨hd, hlive, hloc⟩)
  exact hsound e0 he0 x hx0

theorem mem_mapUpsert {acc : List (Driver × ℝ)} {e p : Driver × ℝ}
    (hp : p ∈ mapUpsert acc e) : p ∈ acc ∨ p = e := by
  induction acc with
  | nil => simpa [mapUpsert] using hp
  | cons x rest ih =>
    by_cases h : x.1.id = e.1.id
    · simp only [mapUpsert, h, if_true, List.mem_cons] at hp
      rcases hp with hp | hp
      · exact Or.inr hp
      · exact Or.inl (List.mem_cons_of_mem _ hp)
    · simp only [mapUpsert, h, if_false, List.mem_cons] at hp
      rcases hp with hp | hp
      · exact Or.inl (by simp [hp])
      · rcases ih hp with h2 | h2
        · exact Or.inl (List.mem_cons_of_mem _ h2)
        · exact Or.inr h2

theorem ids_mem_mapUpsert {acc : List (Driver × ℝ)} {e : Driver × ℝ} {y : String}
    (hy : y ∈ (mapUpsert acc e).map (fun p => p.1.id)) :
    y ∈ acc.map (fun p => p.1.id) ∨ y = e.1.id := by
  obtain ⟨p, hp, hpy⟩ := List.mem_map.mp hy
  rcases mem_mapUpsert hp with hp2 | hp2
  · exact Or.inl (List.mem_map.mpr ⟨p, hp2, hpy⟩)
  · subst hp2; exact Or.inr hpy.symm

theorem nodup_mapUpsert {acc : List (Driver × ℝ)} {e : Driver × ℝ}
    (h : (acc.map (fun p => p.1.id)).Nodup) :
    ((mapUpsert acc e).map (fun p => p.1.id)).Nodup := by
  induction acc with
  | nil => simp [mapUpsert]
  | cons x rest ih =>
    simp only [List.map_cons, List.nodup_cons] at h
    by_cases hid : x.1.id = e.1.id
    · simp only [mapUpsert, hid, if_true, List.map_cons, List.nodup_cons]
      exact ⟨by rw [← hid]; exact h.1, h.2⟩
    · simp only [mapUpsert, hid, if_false, List.map_cons, List.nodup_cons]
      refine ⟨?_, ih h.2⟩
      intro hmem
      rcases ids_mem_mapUpsert hmem with h2 | h2
      · exact h.1 h2
      · exact hid h2

theorem mem_scanDriver {latitude longitude radiusMiles : ℝ}
    {acc : List (Driver × ℝ)} {d : Driver} {p : Driver × ℝ}
    (hp : p ∈ scanDriver latitude longitude radiusMiles acc d) :
    p ∈ acc ∨
      ∃ loc, d.location = some loc ∧
        p = (d, distanceRadius latitude longitude loc.1 loc.2) ∧
        distanceRadius latitude longitude loc.1 loc.2 ≤ radiusMiles := by
  cases hloc : d.location with
  | none => simp only [scanDriver, hloc] at hp; exact Or.inl hp
  | some loc =>
    simp only [scanDriver, hloc] at hp
    split at hp
    · next hle =>
      rcases mem_mapUpsert hp with hp | hp
      · exact Or.inl hp
      · exact Or.inr ⟨loc, rfl, hp, hle⟩
    · exact Or.inl hp

theorem nodup_scanDriver {latitude longitude radiusMiles : ℝ}
    {acc : List (Driver × ℝ)} {d : Driver}
    (h : (acc.map (fun p => p.1.id)).Nodup) :
    ((scanDriver latitude longitude radiusMiles acc d).map (fun p => p.1.id)).Nodup := by
  cases hloc : d.location with
  | none => simpa [scanDriver, hloc] using h
  | some loc =>
    simp only [scanDriver, hloc]
    split
    · exact nodup_mapUpsert h
    · exact h

theorem mem_foldl_scanDriver {latitude longitude radiusMiles : ℝ}
    (cell : List Driver) :
    ∀ acc p, p ∈ cell.foldl (scanDriver latitude longitude radiusMiles) acc →
      p ∈ acc ∨
        ∃ d ∈ cell, ∃ loc, d.location = some loc ∧
          p = (d, distanceRadius latitude longitude loc.1 loc.2) ∧
          distanceRadius latitude longitude loc.1 loc.2 ≤ radiusMiles := by
  induction cell with
  | nil => intro acc p hp; exact Or.inl (by simpa using hp)
  | cons d rest ih =>
    intro acc p hp
    simp only [List.foldl_cons] at hp
    rcases ih _ p hp with hp2 | hp2
    · rcases mem_scanDriver hp2 with hp3 | hp3
      · exact Or.inl hp3
      · obtain ⟨loc, h1, h2, h3⟩ := hp3
        exact Or.inr ⟨d, by simp, loc, h1, h2, h3⟩
    · obtain ⟨d2, hd2, loc, h1, h2, h3⟩ := hp2
      exact Or.inr ⟨d2, List.mem_cons_of_mem _ hd2, loc, h1, h2, h3⟩

theorem nodup_foldl_scanDriver {latitude longitude radiusMiles : ℝ}
    (cell : List Driver) :
    ∀ acc, ((acc : List (Driver × ℝ)).map (fun p => p.1.id)).Nodup →
      ((cell.foldl (scanDriver latitude longitude radiusMiles) acc).map
        (fun p => p.1.id)).Nodup := by
  induction cell with
  | nil => intro acc h; simpa using h
  | cons d rest ih =>
    intro acc h
    simp only [List.foldl_cons]
    exact ih _ (nodup_scanDriver h)

theorem mem_foldl_scanCell {idx : Index} {latitude longitude radiusMiles : ℝ}
    (keys : List (ℤ × ℤ)) :
    ∀ acc p, p ∈ keys.foldl (scanCell idx latitude longitude radiusMiles) acc →
      p ∈ acc ∨
        ∃ key, ∃ d ∈ indexGet idx key, ∃ loc, d.location = some loc ∧
          p = (d, distanceRadius latitude longitude loc.1 loc.2) ∧
          distanceRadius latitude longitude loc.1 loc.2 ≤ radiusMiles := by
  induction keys with
  | nil => intro acc p hp; exact Or.inl (by simpa using hp)
  | cons key rest ih =>
    intro acc p hp
    simp only [List.foldl_cons] at hp
    rcases ih _ p hp with hp2 | hp2
    · rcases mem_foldl_scanDriver _ _ _ hp2 with hp3 | hp3
      · exact Or.inl hp3
      · obtain ⟨d, hd, loc, h1, h2, h3⟩ := hp3
        exact Or.inr ⟨key, d, hd, loc, h1, h2, h3⟩
    · exact Or.inr hp2

theorem nodup_foldl_scanCell {idx : Index} {latitude longitude radiusMiles : ℝ}
    (keys : List (ℤ × ℤ)) :
    ∀ acc, ((acc : List (Driver × ℝ)).map (fun p => p.1.id)).Nodup →
      ((keys.foldl (scanCell idx latitude longitude radiusMiles) acc).map
        (fun p => p.1.id)).Nodup := by
  induction keys with
  | nil => intro acc h; simpa using h
  | cons key rest ih =>
    intro acc h
    simp only [List.foldl_cons]
    exact ih _ (nodup_foldl_scanDriver _ _ h)

theorem updateLive_iff {now : ℤ} {d : Driver} :
    updateLive now d = true ↔
      d.active = true ∧ d.isActive = true ∧
        ∃ t, d.lastSeenOnline = some t ∧ now - t < 10 * 60 * 1000 := by
  cases h : d.lastSeenOnline <;> simp [updateLive, h, and_assoc]

/-- Claim C6 (amended): after `updateSpatialIndex(S)` at instant `now`, the
radius query `getDriversNearLocation(lat, lon, R)` returns ONLY drivers of `S`
that have a valid position, are active (both flags) with a heartbeat STRICTLY
less than 10 minutes old, and whose precise `distanceRadius` to the query point
is at most `R` (each paired with that distance); the returned driver ids are
pairwise distinct and the list is sorted by ascending distance.  (The converse
inclusion claimed by the spec does not hold: see the counterexample, where a
driver whose heartbeat is exactly 10 minutes old is within `R` but excluded by
the index's strict liveness check.) -/
theorem getDriversNearLocation_sound (drivers : List Driver) (now : ℤ)
    (qlat qlng radiusMiles : ℝ) :
    (∀ p ∈ getDriversNearLocation (updateSpatialIndex drivers now) qlat qlng radiusMiles,
        p.1 ∈ drivers ∧ p.1.active = true ∧ p.1.isActive = true ∧
        (∃ t, p.1.lastSeenOnline = some t ∧ now - t < 10 * 60 * 1000) ∧
        ∃ loc, p.1.location = some loc ∧
          p.2 = distanceRadius qlat qlng loc.1 loc.2 ∧ p.2 ≤ radiusMiles) ∧
    ((getDriversNearLocation (updateSpatialIndex drivers now) qlat qlng
        radiusMiles).map (fun p => p.1.id)).Nodup ∧
    (getDriversNearLocation (updateSpatialIndex drivers now) qlat qlng
        radiusMiles).Pairwise (fun a b => a.2 ≤ b.2) := by
  have hperm :
      (getDriversNearLocation (updateSpatialIndex drivers now) qlat qlng radiusMiles).Perm
        ((getNearbyGridKeys qlat qlng radiusMiles).foldl
          (scanCell (updateSpatialIndex drivers now) qlat qlng radiusMiles) []) := by
    unfold getDriversNearLocation
    exact List.mergeSort_perm _ _
  refine ⟨?_, ?_, ?_⟩
  · intro p hp
    have hp2 := hperm.mem_iff.mp hp
    rcases mem_foldl_scanCell _ _ p hp2 with h | h
    · simp at h
    · obtain ⟨key, d, hd, loc, hloc, hpeq, hdist⟩ := h
      obtain ⟨hmem, hlive, -⟩ := indexGet_updateSpatialIndex_sound hd
      obtain ⟨hact, hisact, t, ht, htlt⟩ := updateLive_iff.mp hlive
      subst hpeq
      exact ⟨hmem, hact, hisact, ⟨t, ht, htlt⟩, loc, hloc, rfl, hdist⟩
  · exact ((hperm.map (fun p => p.1.id)).nodup_iff).mpr
      (nodup_foldl_scanCell (getNearbyGridKeys qlat qlng radiusMiles) [] (by simp))
  · have hsorted := @List.sorted_mergeSort (Driver × ℝ)
      (fun a b => decide (a.2 ≤ b.2))
      (fun a b c hab hbc =>
        decide_eq_true (le_trans (of_decide_eq_true hab) (of_decide_eq_true hbc)))
      (fun a b => by simpa using le_total a.2 b.2)
      ((getNearbyGridKeys qlat qlng radiusMiles).foldl
        (scanCell (updateSpatialIndex drivers now) qlat qlng radiusMiles) [])
    unfold getDriversNearLocation
    exact hsorted.imp (fun h => of_decide_eq_true h)

/-- Claim C6, witness of the amended theorem at a concrete input. -/
theorem getDriversNearLocation_sound_witness :
    ((getDriversNearLocation (updateSpatialIndex [] 0) 0 0 1).map
      (fun p => p.1.id)).Nodup :=
  (getDriversNearLocation_sound [] 0 0 0 1).2.1

theorem getDriversNearLocation_nil (latitude longitude radiusMiles : ℝ) :
    getDriversNearLocation ([] : Index) latitude longitude radiusMiles = [] := by
  have h : ∀ (keys : List (ℤ × ℤ)) (acc : List (Driver × ℝ)),
      keys.foldl (scanCell ([] : Index) latitude longitude radiusMiles) acc = acc := by
    intro keys
    induction keys with
    | nil => intro acc; rfl
    | cons k rest ih =>
      intro acc
      simp only [List.foldl_cons]
      rw [show scanCell ([] : Index) latitude longitude radiusMiles acc k = acc from rfl]
      exact ih acc
  simp only [getDriversNearLocation, h, List.mergeSort_nil]

/-- The claim C6 counterexample driver: active, positioned at the origin, with a
heartbeat exactly 10 minutes old at query time `now = 600000`. -/
def cDriver : Driver :=
  { id := "d1", location := some (0, 0), active := true, isActive := true,
    lastSeenOnline := some 0 }

theorem updateSpatialIndex_cDriver : updateSpatialIndex [cDriver] 600000 = [] := by
  unfold updateSpatialIndex
  simp only [List.foldl_cons, List.foldl_nil]
  have hlive : updateLive 600000 cDriver = false := by
    simp [updateLive, cDriver]
  have hloc : cDriver.location = some ((0 : ℝ), (0 : ℝ)) := rfl
  have hadd : addDriverToIndex 600000 [] cDriver = [(getGridKey 0 0, [])] := by
    simp only [addDriverToIndex, hloc, hlive]
    simp [indexFind, indexSet]
  rw [hadd]
  simp [cleanupOldIndexEntries]

theorem distanceRadius_self (lat lon : ℝ) : distanceRadius lat lon lat lon = 0 := by
  unfold distanceRadius atan2
  norm_num [Real.sin_zero, Real.sqrt_zero, Real.sqrt_one, Real.arctan_zero]

/-- Claim C6, counterexample to the claim as stated: take `S = [cDriver]` with
`now = 600000` ms and the radius query at the driver's own position with
`R = 1` mile.  The driver has a valid position, is active, its heartbeat is AT
MOST 10 minutes old (exactly 10 minutes, as the claim's liveness predicate
allows) and its distance to the query point is `0 ≤ R`, yet
`upsertDrivers(S); near(0, 0, 1)` returns the empty list: `updateSpatialIndex`
admits a driver only when `now − lastSeenOnline < 10 min` holds strictly, so
the returned set is not "exactly" the claimed one. -/
theorem near_boundary_heartbeat_excluded :
    getDriversNearLocation (updateSpatialIndex [cDriver] 600000) 0 0 1 = [] ∧
    cDriver.active = true ∧ cDriver.isActive = true ∧
    cDriver.location = some (0, 0) ∧ cDriver.lastSeenOnline = some 0 ∧
    ((600000 : ℤ) - 0 ≤ 10 * 60 * 1000) ∧
    distanceRadius 0 0 0 0 ≤ 1 := by
  refine ⟨?_, rfl, rfl, rfl, rfl, by norm_num, ?_⟩
  · rw [updateSpatialIndex_cDriver]
    exact getDriversNearLocation_nil 0 0 1
  · rw [distanceRadius_self]
    norm_num

/-- A JS driver object as cached and returned by
`getAvailableDriversOptimized`: either a plain driver record (no `distance`
property, `distance = none`) or a `{...driver, distance}` object produced by
`getDriversNearLocation` (`distance = some _`). -/
structure NDriver where
  driver : Driver
  distance : Option ℝ

/-- The fields of `orderData` read by `getAvailableDriversOptimized`
(`orderData.vendor?.latitude && orderData.vendor?.longitude` is modelled as the
presence of the optional position pair). -/
structure OrderData where
  vendorID : String
  vendor : Option (ℝ × ℝ)

/-- The fields of `dispatchMetadata` read by `getAvailableDriversOptimized`
(the `||` fallbacks are modelled by optional fields). -/
structure DispatchMetadata where
  zone_id : Option String
  currentRound : Option ℤ
  kDistanceRadiusForDispatchInMiles : Option ℝ

/-- The cache key
```optimized_drivers_${orderData.vendorID}_${dispatchMetadata.zone_id || 'default'}_${dispatchMetadata.currentRound || '1'}``. -/
def mkCacheKey (orderData : OrderData) (meta : DispatchMetadata) : String :=
  "optimized_drivers_" ++ orderData.vendorID ++ "_" ++ meta.zone_id.getD "default" ++
    "_" ++
    (match meta.currentRound with
     | some r => toString r
     | none => "1")

/-- The loader path of `getAvailableDriversOptimized`:
`fetchAndIndexDrivers` (the externally fetched driver list `fetched` is indexed
via `updateSpatialIndex`) followed by the vendor-position branch selecting
either the radius query (default radius 50 miles) or the full fetched list.
Returns the produced driver list and the rebuilt spatial index. -/
noncomputable def loadDrivers (fetched : List Driver) (orderData : OrderData)
    (meta : DispatchMetadata) (now : ℤ) : List NDriver × Index :=
  let idx := updateSpatialIndex fetched now
  let relevantDrivers :=
    match orderData.vendor with
    | some v =>
      (getDriversNearLocation idx v.1 v.2
        (meta.kDistanceRadiusForDispatchInMiles.getD 50)).map
          (fun p => { driver := p.1, distance := some p.2 })
    | none => fetched.map (fun d => { driver := d, distance := none })
  (relevantDrivers, idx)

/-- `OptimizedDriverSearch.getAvailableDriversOptimized(orderId, orderData,
dispatchMetadata)` over the `CacheManager` cache state, the current spatial
index `idx0`, and the externally fetched driver list.  The cached value is used
only when it is present, unexpired AND non-empty (`cached && cached.length >
0`); otherwise the loader runs and its result is cached for 2 minutes.
Returns (result, new cache state, new spatial index). -/
noncomputable def getAvailableDriversOptimized
    (cache : CacheManager.CMap (List NDriver)) (idx0 : Index)
    (fetched : List Driver) (orderData : OrderData) (meta : DispatchMetadata)
    (now : ℤ) : List NDriver × CacheManager.CMap (List NDriver) × Index :=
  let cacheKey := mkCacheKey orderData meta
  match CacheManager.get cache cacheKey 2 now with
  | some cached =>
    if cached.length > 0 then (cached, cache, idx0)
    else
      let r := loadDrivers fetched orderData meta now
      (r.1, CacheManager.set cache cacheKey r.1 2 now, r.2)
  | none =>
    let r := loadDrivers fetched orderData meta now
    (r.1, CacheManager.set cache cacheKey r.1 2 now, r.2)

/-- Claim C10: a cached value that is an EMPTY driver list is treated as a cache
miss — whenever the cache holds (unexpired) `[]` under the computed key, the
full loader runs (driver fetch, spatial-index rebuild, radius query) and its
result is re-cached under the same key with a 2-minute TTL, so an empty result
is never served from cache. -/
theorem empty_cached_list_treated_as_miss
    (cache : CacheManager.CMap (List NDriver)) (idx0 : Index)
    (fetched : List Driver) (orderData : OrderData) (meta : DispatchMetadata)
    (now : ℤ)
    (hcache : CacheManager.get cache (mkCacheKey orderData meta) 2 now = some []) :
    getAvailableDriversOptimized cache idx0 fetched orderData meta now =
      ((loadDrivers fetched orderData meta now).1,
        CacheManager.set cache (mkCacheKey orderData meta)
          (loadDrivers fetched orderData meta now).1 2 now,
        (loadDrivers fetched orderData meta now).2) := by
  simp [getAvailableDriversOptimized, hcache]

/-- Claim C10, witness: a cache whose entry for the computed key is a fresh
empty list; the loader (with no fetched drivers and no vendor position)
produces `[]`, which is re-cached. -/
theorem empty_cached_list_treated_as_miss_witness :
    CacheManager.get
        (CacheManager.set ([] : CacheManager.CMap (List NDriver))
          (mkCacheKey { vendorID := "v", vendor := none }
            { zone_id := none, currentRound := none,
              kDistanceRadiusForDispatchInMiles := none }) [] 2 0)
        (mkCacheKey { vendorID := "v", vendor := none }
          { zone_id := none, currentRound := none,
            kDistanceRadiusForDispatchInMiles := none }) 2 0 = some [] ∧
    getAvailableDriversOptimized
        (CacheManager.set ([] : CacheManager.CMap (List NDriver))
          (mkCacheKey { vendorID := "v", vendor := none }
            { zone_id := none, currentRound := none,
              kDistanceRadiusForDispatchInMiles := none }) [] 2 0)
        [] [] { vendorID := "v", vendor := none }
        { zone_id := none, currentRound := none,
          kDistanceRadiusForDispatchInMiles := none } 0 =
      ([],
        CacheManager.set
          (CacheManager.set ([] : CacheManager.CMap (List NDriver))
            (mkCacheKey { vendorID := "v", vendor := none }
              { zone_id := none, currentRound := none,
                kDistanceRadiusForDispatchInMiles := none }) [] 2 0)
          (mkCacheKey { vendorID := "v", vendor := none }
            { zone_id := none, currentRound := none,
              kDistanceRadiusForDispatchInMiles := none }) [] 2 0,
        []) := by
  have hcache : CacheManager.get
      (CacheManager.set ([] : CacheManager.CMap (List NDriver))
        (mkCacheKey { vendorID := "v", vendor := none }
          { zone_id := none, currentRound := none,
            kDistanceRadiusForDispatchInMiles := none }) [] 2 0)
      (mkCacheKey { vendorID := "v", vendor := none }
        { zone_id := none, currentRound := none,
          kDistanceRadiusForDispatchInMiles := none }) 2 0 = some [] := by
    rw [CacheManager.get, CacheManager.set, CacheManager.cacheLookup_cacheStore_self]
    norm_num
  refine ⟨hcache, ?_⟩
  have h := empty_cached_list_treated_as_miss
    (CacheManager.set ([] : CacheManager.CMap (List NDriver))
      (mkCacheKey { vendorID := "v", vendor := none }
        { zone_id := none, currentRound := none,
          kDistanceRadiusForDispatchInMiles := none }) [] 2 0)
    [] [] { vendorID := "v", vendor := none }
    { zone_id := none, currentRound := none,
      kDistanceRadiusForDispatchInMiles := none } 0 hcache
  rw [h]
  rfl

end OptimizedDriverSearch
